import Mathlib

/-
Verification of the CVM virtual machine sources.

This file gives a shallow embedding of the parts of the CVM repository that
the verified properties talk about:

* `source/runtime/datamanage.cpp` — the data-move primitives
  (`MoveRegister`, `LoadData`, `LoadDataPointer`, `GetDstData`, `GetSrcData`,
  `AllocClear`, `CopyTo`, `Clear`, `GetSize`).  Heap memory is modelled as a
  map from buffer addresses to byte lists; `DataPointer` values are modelled
  as addresses, so pointer identity (reference transfer) is observable.
* `source/parse.cpp` — `parseRegister`, `parseIdentifier`, the `.datas`
  `data` directive, the `.type` section handler, the error-code table.
* `include/runtime/environment.h` — `Environment`, `GlobalEnvironment`,
  `addSubEnvironment`, `getType`.

Machine integers are modelled as `Nat` (bounds appear explicitly where the
C++ width matters).  C++ behaviour that is undefined (null dereference,
missing type-registry entry) is modelled with `Option`: `none` means the
source has no defined result there.
-/

namespace CVM

/-- TypeIndex is a small non-negative integer naming a type in the registry.
Index 0 is the null/invalid type. -/
abbrev TypeIndex := Nat

/-- Addresses of heap buffers; the model of the C++ `DataPointer` value. -/
abbrev Addr := Nat

/-- One byte, modelled as a natural number (values used are `< 256`). -/
abbrev Byte := Nat

/-- TypeInfo as used by `datamanage.cpp`: a byte size. -/
structure TypeInfo where
  size : Nat
deriving Repr, DecidableEq

/-- Modelled from the spec: `TypeInfoMap` (its header `typeinfo.h` is not in
the sources; only its use sites are).  The spec describes it as a bijection
`name → TypeIndex` plus an array `TypeIndex → TypeInfo`, insertion ordered,
with all real types starting at index 1 and `TypeIndex(0)` null/invalid.
Entry `k` of `entries` carries `TypeIndex` `k + 1`. -/
structure TypeInfoMap where
  entries : List (String × TypeInfo)
deriving Repr, DecidableEq

/-- `TypeInfoMap::find(name, &index)`: the index of the first entry with the
given name, or `none` (the C++ returns `false`). -/
def TypeInfoMap.find (m : TypeInfoMap) (name : String) : Option TypeIndex :=
  (m.entries.findIdx? (fun e => e.1 = name)).map (· + 1)

/-- `TypeInfoMap::at(TypeIndex)`: lookup by index; `none` models the C++
undefined lookup of a missing index (index 0 included). -/
def TypeInfoMap.atIndex (m : TypeInfoMap) : TypeIndex → Option TypeInfo
  | 0 => none
  | k + 1 => (m.entries.get? k).map (·.2)

/-- `TypeInfoMap::insert(name, info)`: append a new entry (the parser checks
`find` before inserting, see `parseSectionTypeCase`). -/
def TypeInfoMap.insert (m : TypeInfoMap) (name : String) (info : TypeInfo) : TypeInfoMap :=
  ⟨m.entries ++ [(name, info)]⟩

namespace Runtime

/-- The fields of `class Environment` (environment.h) that the verified
properties touch: the parent link `_penv`, the borrowed type-info map
`_timp` (a possibly-null pointer, hence `Option`), and the set of owned
sub-environments `_subenv_set`.  Environments elsewhere in the tree are
named by numeric identifiers. -/
structure Environment where
  penv : Option Nat := none
  timp : Option TypeInfoMap := none
  subenvs : List Nat := []
deriving Repr, DecidableEq

/-- `Environment::getType(index)` is `_timp->at(index)`; dereferencing a
null `_timp` is undefined, hence `none`. -/
def Environment.getType (env : Environment) (i : TypeIndex) : Option TypeInfo :=
  env.timp.bind (fun m => m.atIndex i)

/-- `Environment::addSubEnvironment(envp)`: `envp->SetPEnv(this)` (the code
asserts the child's `_penv` was null) and the child is added to the parent's
`_subenv_set`.  The result is `(updated parent, updated child)`. -/
def Environment.addSubEnvironment (parent : Environment) (pid : Nat)
    (child : Environment) (cid : Nat) : Environment × Environment :=
  ({ parent with subenvs := parent.subenvs ++ [cid] },
   { child with penv := some pid })

/-- `GlobalEnvironment` construction: `_tim` is a copy of the given map and
`_timp = &_tim`, so its `timp` is non-null from birth. -/
def mkGlobalEnvironment (tim : TypeInfoMap) : Environment :=
  { timp := some tim }

/-- `GlobalEnvironment::addSubEnvironment(envp)`: the base-class attach,
then `envp->SetTypeInfoMap(this->_timp)`. -/
def GlobalEnvironment.addSubEnvironment (parent : Environment) (pid : Nat)
    (child : Environment) (cid : Nat) : Environment × Environment :=
  let pc := Environment.addSubEnvironment parent pid child cid
  (pc.1, { pc.2 with timp := parent.timp })

/-- A dynamic register (`dyvarb`): a data pointer and a mutable type. -/
structure DataRegisterDynamic where
  data : Addr
  type : TypeIndex
deriving Repr, DecidableEq

/-- A static register (`stvarb`): a data pointer to a pre-sized buffer.  The
declared type is fixed at function-definition time; `datamanage.cpp` never
reads or writes it, it is carried here so that theorems can observe that it
never changes (field modelled from the spec; `registerset.h` is not in the
sources). -/
structure DataRegisterStatic where
  data : Addr
  declaredType : TypeIndex
deriving Repr, DecidableEq

/-- The machine state the data-move primitives act on: the heap (address to
buffer contents, with `next` the next fresh address `malloc` would return)
and the register file the operand descriptors point into. -/
structure State where
  mem : Addr → List Byte
  next : Addr
  dyn : Nat → DataRegisterDynamic
  sta : Nat → DataRegisterStatic

/-- The `DstRegisterMode` enumeration of `datamanage.h`. -/
inductive DstRegisterMode
  | drm_null
  | drm_register_dynamic
  | drm_register_static
deriving Repr, DecidableEq

/-- Model of the C++ pointer `DataPointer *datap`: which register's data
slot it points to. -/
inductive DataSlot
  | dynSlot (i : Nat)
  | staSlot (i : Nat)
deriving Repr, DecidableEq

/-- Model of the C++ pointer `TypeIndex *typep`: which register's type slot
it points to.  `GetDstData` only ever takes the address of a dynamic
register's type. -/
inductive TypeSlot
  | dynType (i : Nat)
deriving Repr, DecidableEq

/-- `DstData`: destination operand adapter.  `typep` is a possibly-null
pointer, hence `Option`. -/
structure DstData where
  mode : DstRegisterMode
  datap : DataSlot
  typep : Option TypeSlot
deriving Repr, DecidableEq

/-- `SrcData`: source operand adapter, a data pointer and a type. -/
structure SrcData where
  data : Addr
  type : TypeIndex
deriving Repr, DecidableEq

/-- Semantics of `memcpy(dst, src, n)` on buffer contents: the first `n`
bytes of the source followed by the rest of the destination.  This agrees
with the C++ whenever `n` is within both buffers, which the theorems
hypothesise. -/
def copyBytes (dst src : List Byte) (n : Nat) : List Byte :=
  src.take n ++ dst.drop n

/-- Semantics of `memset(dst, 0, n)` on buffer contents. -/
def clearBytes (dst : List Byte) (n : Nat) : List Byte :=
  List.replicate n 0 ++ dst.drop n

/-- `CopyTo(dst, src, size)`: copy `size` bytes between heap buffers. -/
def State.copyTo (s : State) (dst src : Addr) (n : Nat) : State :=
  { s with mem := fun a => if a = dst then copyBytes (s.mem dst) (s.mem src) n else s.mem a }

/-- Copy `n` bytes from an explicit byte list into the heap buffer at
`dst` (used where the C++ source pointer is a local variable, namely the
`&address` copy in `LoadDataPointer`). -/
def State.writeBytes (s : State) (dst : Addr) (bs : List Byte) (n : Nat) : State :=
  { s with mem := fun a => if a = dst then copyBytes (s.mem dst) bs n else s.mem a }

/-- `Clear(dst, size)`: zero the first `size` bytes of the buffer at `dst`. -/
def State.clear (s : State) (dst : Addr) (n : Nat) : State :=
  { s with mem := fun a => if a = dst then clearBytes (s.mem dst) n else s.mem a }

/-- `AllocClear(size)`: `calloc` a zero-initialised buffer of `size` bytes at
a fresh address.  Returns the new state and the fresh address. -/
def State.allocClear (s : State) (n : Nat) : State × Addr :=
  ({ s with
      mem := fun a => if a = s.next then List.replicate n 0 else s.mem a,
      next := s.next + 1 },
   s.next)

/-- Read the data pointer stored in a register slot. -/
def State.readData (s : State) : DataSlot → Addr
  | .dynSlot i => (s.dyn i).data
  | .staSlot i => (s.sta i).data

/-- Write a data pointer through a `DataPointer *` slot pointer. -/
def State.writeData (s : State) : DataSlot → Addr → State
  | .dynSlot i, a =>
    { s with dyn := fun k => if k = i then { s.dyn i with data := a } else s.dyn k }
  | .staSlot i, a =>
    { s with sta := fun k => if k = i then { s.sta i with data := a } else s.sta k }

/-- Write a type index through a `TypeIndex *` slot pointer. -/
def State.writeType (s : State) : TypeSlot → TypeIndex → State
  | .dynType i, t =>
    { s with dyn := fun k => if k = i then { s.dyn i with type := t } else s.dyn k }

namespace DataManage

/-- `GetSize(env, type)` is `env.getType(type).size`; `none` when the type
lookup is undefined. -/
def GetSize (env : Environment) (t : TypeIndex) : Option Nat :=
  (env.getType t).map TypeInfo.size

/-- `GetDstData(DataRegisterDynamic &)`: mode `drm_register_dynamic`, data
slot `&dst.data`, type slot `&dst.type`. -/
def GetDstData_dynamic (i : Nat) : DstData :=
  ⟨.drm_register_dynamic, .dynSlot i, some (.dynType i)⟩

/-- `GetDstData(DataRegisterStatic &)`: mode `drm_register_static`, data
slot `&dst.data`, null type slot. -/
def GetDstData_static (i : Nat) : DstData :=
  ⟨.drm_register_static, .staSlot i, none⟩

/-- `GetSrcData(const DataRegisterDynamic &)`: the register's own data and
type. -/
def GetSrcData_dynamic (s : State) (i : Nat) : SrcData :=
  ⟨(s.dyn i).data, (s.dyn i).type⟩

/-- `GetSrcData(const DataRegisterStatic &, TypeIndex)`: the register's data
with a caller-supplied type. -/
def GetSrcData_static (s : State) (i : Nat) (t : TypeIndex) : SrcData :=
  ⟨(s.sta i).data, t⟩

/-- `MoveRegister(env, dst, src)` (`datamanage.cpp` lines 50-66): switch on
`dst.mode` (null: nothing; dynamic: `*dst.datap = src.data`, a pointer
reassignment; static: `CopyTo(*dst.datap, src.data, GetSize(env, src.type))`),
and then — outside the switch — `if (dst.typep) *dst.typep = src.type`. -/
def MoveRegister (env : Environment) (s : State) (dst : DstData) (src : SrcData) :
    Option State := do
  let s1 ← match dst.mode with
    | .drm_null => some s
    | .drm_register_dynamic => some (s.writeData dst.datap src.data)
    | .drm_register_static => do
      let sz ← GetSize env src.type
      some (s.copyTo (s.readData dst.datap) src.data sz)
  match dst.typep with
  | some tp => some (s1.writeType tp src.type)
  | none => some s1

/-- `LoadData(env, dst, src, dsttype, srcsize)` (`datamanage.cpp` lines
68-84).  Dynamic: `*dst.datap = AllocClear(GetSize(env, dsttype))`, then
`CopyTo(*dst.datap, src, min(GetSize(env, dsttype), srcsize))`, then
`*dst.typep = dsttype`.  Static: `Clear(*dst.datap, GetSize(env, dsttype))`
then the same bounded copy.  Null: nothing. -/
def LoadData (env : Environment) (s : State) (dst : DstData) (src : Addr)
    (dsttype : TypeIndex) (srcsize : Nat) : Option State :=
  match dst.mode with
  | .drm_null => some s
  | .drm_register_dynamic => do
    let sz ← GetSize env dsttype
    let alloc := s.allocClear sz
    let s2 := alloc.1.writeData dst.datap alloc.2
    let s3 := s2.copyTo (s2.readData dst.datap) src (min sz srcsize)
    let tp ← dst.typep
    some (s3.writeType tp dsttype)
  | .drm_register_static => do
    let sz ← GetSize env dsttype
    let a := s.readData dst.datap
    let s1 := s.clear a sz
    some (s1.copyTo a src (min sz srcsize))

/-- `DataPointer::Size`: the platform machine-word size in bytes (x86-64). -/
def DataPointer.Size : Nat := 8

/-- The byte image of a pointer value: `DataPointer::Size` little-endian
bytes of the address (the bytes `memcpy` reads from `&address`). -/
def encodeAddr (a : Addr) : List Byte :=
  (List.range DataPointer.Size).map fun k => a / 256 ^ k % 256

/-- Modelled from the spec: `T_Pointer`, the reserved `TypeIndex` denoting
the machine-word pointer type (declared in a header that is not in the
sources; its numeric value is irrelevant to the properties below). -/
def T_Pointer : TypeIndex := 1

/-- `LoadDataPointer(env, dst, src, srcsize)` (`datamanage.cpp` lines
86-109).  Both register modes allocate a fresh zeroed buffer of `srcsize`,
copy the literal into it, and store the buffer's address (as
`DataPointer::Size` bytes) into the destination; the dynamic mode first
replaces the destination slot with a fresh `DataPointer::Size`-byte buffer
and finally sets `*dst.typep = T_Pointer`. -/
def LoadDataPointer (env : Environment) (s : State) (dst : DstData) (src : Addr)
    (srcsize : Nat) : Option State :=
  match dst.mode with
  | .drm_null => some s
  | .drm_register_dynamic => do
    let alloc1 := s.allocClear srcsize
    let s2 := alloc1.1.copyTo alloc1.2 src srcsize
    let alloc2 := s2.allocClear DataPointer.Size
    let s4 := alloc2.1.writeData dst.datap alloc2.2
    let s5 := s4.writeBytes (s4.readData dst.datap) (encodeAddr alloc1.2) DataPointer.Size
    let tp ← dst.typep
    some (s5.writeType tp T_Pointer)
  | .drm_register_static =>
    let alloc1 := s.allocClear srcsize
    let s2 := alloc1.1.copyTo alloc1.2 src srcsize
    some (s2.writeBytes (s2.readData dst.datap) (encodeAddr alloc1.2) DataPointer.Size)

end DataManage

end Runtime

namespace InstStruct

/-- The register classes of `InstStruct::Register` (`r_n` unqualified
numeric, `r_g` global, `r_t` temporary, plus the dedicated `r_res` and
`r_0`). -/
inductive RegisterType
  | r_n
  | r_g
  | r_t
deriving Repr, DecidableEq

/-- The environment qualifiers of an instruction-structure register. -/
inductive EnvType
  | e_current
  | e_parent
  | e_temp
deriving Repr, DecidableEq

/-- The possible values of `InstStruct::Register` as produced by
`parseRegister`: the default-constructed register (error paths), the
dedicated result and zero registers, a `(class, env, index)` triple, or
`undef` for the paths on which the C++ returns a register built from
uninitialised locals (undefined contents). -/
inductive Register
  | empty
  | res
  | zero
  | reg (rtype : RegisterType) (etype : EnvType) (index : Nat)
  | undef
deriving Repr, DecidableEq

end InstStruct

/-- The `ParseErrorCode` enumeration of `parse.cpp`. -/
inductive ParseErrorCode
  | PEC_NumTooLarge
  | PEC_URDid
  | PEC_URNum
  | PEC_URIns
  | PEC_URCmd
  | PEC_UREnv
  | PEC_URReg
  | PEC_UREscape
  | PEC_UFType
  | PEC_UFFunc
  | PEC_DUType
  | PEC_DUFunc
  | PEC_DUDataId
deriving Repr, DecidableEq

/-- The `pecmap` table inside `ParseInfo::geterrmsg`. -/
def geterrmsg : ParseErrorCode → String
  | .PEC_NumTooLarge => "Number too large"
  | .PEC_URDid => "Unrecognized data index"
  | .PEC_URNum => "Unrecognized number"
  | .PEC_URCmd => "Unrecognized command"
  | .PEC_URIns => "Unrecognized instruction"
  | .PEC_UREnv => "Unrecognized environment"
  | .PEC_URReg => "Unrecognized register"
  | .PEC_UREscape => "Unrecognized escape"
  | .PEC_UFType => "Unfind type"
  | .PEC_UFFunc => "Unfind function"
  | .PEC_DUType => "type name duplicate"
  | .PEC_DUFunc => "func name duplicate"
  | .PEC_DUDataId => "data index duplicate"

/-- One diagnostic emitted by the parser: `putErrorLine()` with no code
(`generic`) or `putErrorLine(pec)` / `putErrorLine(pec, msg)` (`code pec`).
Parsing continues after a diagnostic, so each parse function returns its
value together with the ordered list of diagnostics it printed. -/
inductive ParseErr
  | generic
  | code (c : ParseErrorCode)
deriving Repr, DecidableEq

/-- The loop body of `parseIdentifier`: walk the characters with the
`escape` flag.  In escape state, `%` or `#` is appended and anything else is
an `UnrecognizedEscape` diagnostic (the character is dropped); outside
escape state, `%` enters escape state and every other character — `#`
included — is appended verbatim.  A trailing `%` (escape still set at the
end) is an `UnrecognizedEscape` diagnostic. -/
def parseIdentifierChars : List Char → Bool → List Char × List ParseErr
  | [], false => ([], [])
  | [], true => ([], [.code .PEC_UREscape])
  | c :: rest, true =>
    let r := parseIdentifierChars rest false
    if c = '%' || c = '#' then (c :: r.1, r.2)
    else (r.1, .code .PEC_UREscape :: r.2)
  | c :: rest, false =>
    if c = '%' then parseIdentifierChars rest true
    else
      let r := parseIdentifierChars rest false
      (c :: r.1, r.2)

/-- `parseIdentifier(parseinfo, word)`: the decoded identifier and the
diagnostics printed while decoding. -/
def parseIdentifier (word : List Char) : List Char × List ParseErr :=
  parseIdentifierChars word false

/-- `PriLib::Convert::is_integer(word)`: a non-empty string of decimal
digits. -/
def isIntegerDec (w : List Char) : Bool :=
  !w.isEmpty && w.all Char.isDigit

/-- Value of a decimal digit string. -/
def digitsToNat (ds : List Char) : Nat :=
  ds.foldl (fun acc c => acc * 10 + (c.toNat - '0'.toNat)) 0

/-- `parseNumber<T>(parseinfo, word)` for an unsigned `T` with `bound`
values: `to_integer` with the error callback that prints `NumberTooLarge`
for an in-syntax but out-of-range number and `UnrecognizedNumber`
otherwise.  On the error paths the C++ value (whatever `to_integer`
returns after invoking the callback) is unspecified, modelled as `none`;
no theorem below depends on it. -/
def parseNumberBounded (bound : Nat) (w : List Char) : Option Nat × List ParseErr :=
  if isIntegerDec w then
    if digitsToNat w < bound then (some (digitsToNat w), [])
    else (none, [.code .PEC_NumTooLarge])
  else (none, [.code .PEC_URNum])

/-- A character of the regex class `\w`. -/
def isWordChar (c : Char) : Bool :=
  c.isAlphanum || c == '_'

/-- Whole-string match of the regex `(\d+)` (`rc` in `parseRegister`). -/
def regexRC (s : List Char) : Bool :=
  !s.isEmpty && s.all Char.isDigit

/-- Whole-string match of the regex `(\d+)\(\%(\w+)\)` (`re` in
`parseRegister`), returning the two capture groups. -/
def regexRE (s : List Char) : Option (List Char × List Char) :=
  let ds := s.takeWhile Char.isDigit
  match s.drop ds.length with
  | '(' :: rest2 =>
    match rest2 with
    | '%' :: rest3 =>
      let ws := rest3.takeWhile isWordChar
      if !ds.isEmpty && !ws.isEmpty && rest3.drop ws.length = [')'] then
        some (ds, ws)
      else none
    | _ => none
  | _ => none

/-- `parseRegister(parseinfo, word)` (`parse.cpp` lines 96-161).  A word not
starting with `%` is a generic diagnostic and the default register;
`%res` and `%0` map to the dedicated registers; otherwise `word[1]`
selects the class (`g`, `t`, or a digit for `r_n`; anything else is a
generic diagnostic and leaves `rtype` uninitialised), and the remainder is
matched against `(\d+)` (env defaults to `e_current`) or
`(\d+)\(\%(\w+)\)` (with `env`/`tenv`/`penv`; an unknown qualifier is the
`UnrecognizedEnvironment` diagnostic and leaves `etype` uninitialised; no
match is the `UnrecognizedRegister` diagnostic and leaves `etype` and
`index` uninitialised).  A register built from any uninitialised local is
`undef`. -/
def parseRegister (word : List Char) : InstStruct.Register × List ParseErr :=
  if word.head? ≠ some '%' then (.empty, [.generic])
  else if word = ['%', 'r', 'e', 's'] then (.res, [])
  else if word = ['%', '0'] then (.zero, [])
  else
    let c1 := word.getD 1 (Char.ofNat 0)
    let cls : Option InstStruct.RegisterType × Nat × List ParseErr :=
      if c1 = 'g' then (some .r_g, 2, [])
      else if c1 = 't' then (some .r_t, 2, [])
      else if c1.isDigit then (some .r_n, 1, [])
      else (none, 1, [.generic])
    let mword := word.drop cls.2.1
    let suffix : Option InstStruct.EnvType × Option Nat × List ParseErr :=
      if regexRC mword then
        let num := parseNumberBounded 65536 mword
        (some .e_current, num.1, num.2)
      else
        match regexRE mword with
        | some (ds, ws) =>
          let num := parseNumberBounded 65536 ds
          if ws = ['e', 'n', 'v'] then (some .e_current, num.1, num.2)
          else if ws = ['t', 'e', 'n', 'v'] then (some .e_temp, num.1, num.2)
          else if ws = ['p', 'e', 'n', 'v'] then (some .e_parent, num.1, num.2)
          else (none, num.1, num.2 ++ [.code .PEC_UREnv])
        | none => (none, none, [.code .PEC_URReg])
    let errs := cls.2.2 ++ suffix.2.2
    match cls.1, suffix.1, suffix.2.1 with
    | some rt, some et, some idx => (.reg rt et idx, errs)
    | _, _, _ => (.undef, errs)

/-- `parseDataIndex(parseinfo, word)`: a word not starting with `#` is the
`UnrecognizedDataIndex` diagnostic; the index is `parseNumber` applied to
the rest (`DataIndex::Type` is a 32-bit unsigned integer). -/
def parseDataIndex (word : List Char) : Option Nat × List ParseErr :=
  let e1 : List ParseErr := if word.head? = some '#' then [] else [.code .PEC_URDid]
  let num := parseNumberBounded (2 ^ 32) (word.drop 1)
  (num.1, e1 ++ num.2)

/-- `PriLib::Convert::is_integer(word, 16)`: a non-empty string of hex
digits. -/
def isIntegerHex (w : List Char) : Bool :=
  !w.isEmpty && w.all (fun c => c.isDigit || ('a' ≤ c && c ≤ 'f') || ('A' ≤ c && c ≤ 'F'))

/-- Value of a hex digit. -/
def hexDigitToNat (c : Char) : Nat :=
  if c.isDigit then c.toNat - '0'.toNat
  else if 'a' ≤ c && c ≤ 'f' then c.toNat - 'a'.toNat + 10
  else c.toNat - 'A'.toNat + 10

/-- Value of a hex digit string. -/
def hexToNat (w : List Char) : Nat :=
  w.foldl (fun acc c => acc * 16 + hexDigitToNat c) 0

/-- Modelled from the spec: `PriLib::Convert::to_base16(word, buffer)` (the
PriLib support library is not in the sources).  The spec's `.datas` example
(`data #1 0xDEADBEEF 4` printing `EFBEADDE`) fixes the decoding: the hex
word is an unsigned integer written into the buffer in little-endian byte
order, one byte per hex-digit pair, `⌈|word|/2⌉` bytes in all. -/
def decodeHexLE (w : List Char) : List Byte :=
  (List.range ((w.length + 1) / 2)).map fun k => hexToNat w / 256 ^ k % 256

/-- `parseDataLarge(parseinfo, buffer, word)` (`parse.cpp` lines 187-196):
if the word is hex, decode it into the front of the buffer; otherwise the
`UnrecognizedNumber` diagnostic and the buffer is untouched. -/
def parseDataLarge (buffer : List Byte) (w : List Char) : List Byte × List ParseErr :=
  if isIntegerHex w then
    (Runtime.copyBytes buffer (decodeHexLE w) (decodeHexLE w).length, [])
  else (buffer, [.code .PEC_URNum])

/-- Lookup in the parser's `datamap` (a `std::map` keyed by the data
index). -/
def dataMapFind (m : List (Nat × List Byte)) (k : Nat) : Option (List Byte) :=
  (m.find? (fun e => e.1 == k)).map (·.2)

/-- The `data` directive handler of the `.datas` section (`parse.cpp` lines
400-424).  With exactly three words: parse `#index`; if the index is fresh,
parse the capacity, require a `0x` prefix on the payload (else the
`UnrecognizedNumber` diagnostic and no store), then, when
`(payload length) / 2 ≤ capacity`, decode the payload into a zeroed
`capacity`-byte buffer and store it; a longer payload is the
`NumberTooLarge` diagnostic and no store.  A duplicate index is the
`DataIndexDuplicate` diagnostic.  With any other word count the handler
does nothing.  When the index parse failed its C++ value is unspecified;
that case is modelled with index 0 and no theorem relies on it. -/
def datasDataDirective (datamap : List (Nat × List Byte)) (list : List (List Char)) :
    List (Nat × List Byte) × List ParseErr :=
  if list.length = 3 then
    let l0 := list.getD 0 []
    let l1 := list.getD 1 []
    let l2 := list.getD 2 []
    let di := parseDataIndex l0
    let e0 := di.2
    match dataMapFind datamap (di.1.getD 0) with
    | none =>
      let szp := parseNumberBounded (2 ^ 64) l2
      let size := szp.1.getD 0
      if l1.length ≤ 2 || !(l1.getD 0 (Char.ofNat 0) = '0') || !(l1.getD 1 (Char.ofNat 0) = 'x') then
        (datamap, e0 ++ szp.2 ++ [.code .PEC_URNum])
      else if (l1.length - 2) / 2 ≤ size then
        let buf := parseDataLarge (List.replicate size 0) (l1.drop 2)
        (datamap ++ [(di.1.getD 0, buf.1)], e0 ++ szp.2 ++ buf.2)
      else (datamap, e0 ++ szp.2 ++ [.code .PEC_NumTooLarge])
    | some _ => (datamap, e0 ++ [.code .PEC_DUDataId])
  else (datamap, [])

/-- The `ks_type` case of `parseSection` (`parse.cpp` lines 302-317).  The
state it touches is `(tim, currtype)`: a wrong argument count is a generic
diagnostic; the identifier is decoded; a name already in the registry is
the `DuplicateType` diagnostic with no insertion and `currtype` untouched;
a fresh name becomes `currtype` and is inserted with a default `TypeInfo`
(size 0, filled in later by the `size` directive). -/
def parseSectionTypeCase (tim : TypeInfoMap) (currtype : String) (list : List (List Char)) :
    TypeInfoMap × String × List ParseErr :=
  let e0 : List ParseErr := if list.length ≠ 1 then [.generic] else []
  let name := parseIdentifier (list.getD 0 [])
  match tim.find (String.mk name.1) with
  | some _ => (tim, currtype, e0 ++ name.2 ++ [.code .PEC_DUType])
  | none =>
    (tim.insert (String.mk name.1) ⟨0⟩, String.mk name.1, e0 ++ name.2)

section Theorems

open Runtime Runtime.DataManage

/-- C1: `mov` between two dynamic registers (a `MoveRegister` whose
destination is the dynamic register `j` via `GetDstData` and whose source is
the `SrcData` of dynamic register `i`) makes the destination's data pointer
equal to the source's data pointer and the destination's type equal to the
source's type, with no byte copy: the heap, the allocator and the static
registers are untouched. -/
theorem moveRegister_dynamic_transfers_reference (env : Environment) (s : State) (i j : Nat) :
    ∃ s', MoveRegister env s (GetDstData_dynamic j) (GetSrcData_dynamic s i) = some s' ∧
      (s'.dyn j).data = (s.dyn i).data ∧
      (s'.dyn j).type = (s.dyn i).type ∧
      s'.mem = s.mem ∧ s'.next = s.next ∧ s'.sta = s.sta := by
  refine ⟨_, rfl, ?_, ?_, rfl, rfl, rfl⟩ <;>
    simp [MoveRegister, GetDstData_dynamic, GetSrcData_dynamic, State.writeData,
      State.writeType]

/-- C3: `mov` into a static register (a `MoveRegister` whose destination is
static register `j` via `GetDstData`) byte-copies exactly
`sizeof(type_registry[src.type])` bytes from the source's buffer into the
static register's buffer; the register file itself is untouched (in
particular no type store happens — the descriptor's type-slot pointer is
null). -/
theorem moveRegister_static_copies_bytes (env : Environment) (s : State) (j : Nat)
    (src : SrcData) (sz : Nat) (hsz : GetSize env src.type = some sz) :
    ∃ s', MoveRegister env s (GetDstData_static j) src = some s' ∧
      s'.dyn = s.dyn ∧ s'.sta = s.sta ∧ s'.next = s.next ∧
      (GetDstData_static j).typep = none ∧
      s'.mem ((s.sta j).data) =
        (s.mem src.data).take sz ++ (s.mem ((s.sta j).data)).drop sz ∧
      (∀ a, a ≠ (s.sta j).data → s'.mem a = s.mem a) := by
  have h : MoveRegister env s (GetDstData_static j) src =
      some (s.copyTo (s.readData (DataSlot.staSlot j)) src.data sz) := by
    simp [MoveRegister, GetDstData_static, hsz]
  refine ⟨_, h, rfl, rfl, rfl, rfl, ?_, ?_⟩
  · simp [State.copyTo, State.readData, copyBytes]
  · intro a ha
    simp [State.copyTo, State.readData, ha]

/-- C3 witness: a concrete instance of the static-destination `mov`. -/
theorem moveRegister_static_copies_bytes_witness :
    ∃ s', MoveRegister { timp := some ⟨[("u32", ⟨4⟩)]⟩ }
        ⟨fun _ => [1, 2, 3, 4, 5, 6, 7, 8], 50, fun _ => ⟨0, 0⟩, fun _ => ⟨9, 1⟩⟩
        (GetDstData_static 0) ⟨7, 1⟩ = some s' ∧
      s'.dyn = (⟨fun _ => [1, 2, 3, 4, 5, 6, 7, 8], 50, fun _ => ⟨0, 0⟩,
        fun _ => ⟨9, 1⟩⟩ : State).dyn ∧
      s'.sta = (⟨fun _ => [1, 2, 3, 4, 5, 6, 7, 8], 50, fun _ => ⟨0, 0⟩,
        fun _ => ⟨9, 1⟩⟩ : State).sta ∧
      s'.next = 50 ∧
      (GetDstData_static 0).typep = none ∧
      s'.mem 9 = [1, 2, 3, 4] ++ [5, 6, 7, 8] ∧
      (∀ a, a ≠ 9 → s'.mem a = [1, 2, 3, 4, 5, 6, 7, 8]) :=
  moveRegister_static_copies_bytes { timp := some ⟨[("u32", ⟨4⟩)]⟩ }
    ⟨fun _ => [1, 2, 3, 4, 5, 6, 7, 8], 50, fun _ => ⟨0, 0⟩, fun _ => ⟨9, 1⟩⟩ 0 ⟨7, 1⟩ 4 rfl

/-- C4 counterexample: `MoveRegister` with a `Null`-mode destination whose
type-slot pointer is non-null (aimed at dynamic register 0, of type 5) still
writes the source's type (9) through it — the `if (dst.typep)` store sits
outside the mode switch — so a `Null` destination is not always without
effect. -/
theorem moveRegister_null_mode_counterexample :
    (Runtime.DataManage.MoveRegister ⟨none, none, []⟩
        ⟨fun _ => [], 100, fun _ => ⟨0, 5⟩, fun _ => ⟨0, 0⟩⟩
        ⟨.drm_null, .dynSlot 0, some (.dynType 0)⟩ ⟨7, 9⟩).map (fun s' => (s'.dyn 0).type)
      = some 9 ∧
    ((⟨fun _ => [], 100, fun _ => ⟨0, 5⟩, fun _ => ⟨0, 0⟩⟩ : State).dyn 0).type = 5 :=
  ⟨rfl, rfl⟩

/-- C4 amended: with a `Null`-mode destination, `LoadData` and
`LoadDataPointer` have no effect at all, and `MoveRegister` leaves the heap,
the allocator, every static register and every data slot unchanged; it is a
complete no-op whenever the descriptor's type-slot pointer is null (the one
exception being the type store through a non-null type-slot pointer
exhibited by the counterexample). -/
theorem null_destination_no_effect_amended (env : Environment) (s : State) (dst : DstData)
    (src : SrcData) (srcp : Addr) (t : TypeIndex) (n : Nat)
    (hm : dst.mode = .drm_null) :
    (dst.typep = none → MoveRegister env s dst src = some s) ∧
    (∀ s', MoveRegister env s dst src = some s' →
      s'.mem = s.mem ∧ s'.next = s.next ∧ s'.sta = s.sta ∧
      ∀ k, (s'.dyn k).data = (s.dyn k).data) ∧
    LoadData env s dst srcp t n = some s ∧
    LoadDataPointer env s dst srcp n = some s := by
  obtain ⟨mode, datap, typep⟩ := dst
  simp only at hm
  subst hm
  refine ⟨?_, ?_, rfl, rfl⟩
  · intro ht
    simp only at ht
    subst ht
    rfl
  · intro s' hs'
    match typep with
    | none =>
      simp only [MoveRegister, Option.bind] at hs'
      cases hs'
      exact ⟨rfl, rfl, rfl, fun k => rfl⟩
    | some (.dynType i) =>
      simp only [MoveRegister, Option.bind] at hs'
      cases hs'
      refine ⟨rfl, rfl, rfl, fun k => ?_⟩
      by_cases hk : k = i <;> simp [State.writeType, hk]

/-- C4 witness: the amended no-effect statement at a concrete `Null`
destination. -/
theorem null_destination_no_effect_amended_witness :
    LoadData ⟨none, none, []⟩ ⟨fun _ => [], 100, fun _ => ⟨0, 5⟩, fun _ => ⟨0, 0⟩⟩
        ⟨.drm_null, .dynSlot 0, none⟩ 3 1 4
      = some ⟨fun _ => [], 100, fun _ => ⟨0, 5⟩, fun _ => ⟨0, 0⟩⟩ :=
  (null_destination_no_effect_amended ⟨none, none, []⟩
    ⟨fun _ => [], 100, fun _ => ⟨0, 5⟩, fun _ => ⟨0, 0⟩⟩
    ⟨.drm_null, .dynSlot 0, none⟩ ⟨7, 9⟩ 3 1 4 rfl).2.2.1

/-- C2: `LoadData` into a dynamic register allocates a fresh zero-initialised
buffer of `sizeof(dsttype)` bytes (at the allocator's next address), copies
`min(sizeof(dsttype), srcsize)` bytes of the source into it — the remaining
bytes staying zero — publishes the buffer into the register's data slot and
writes `dsttype` into its type slot. -/
theorem loadData_dynamic_fresh_zeroed_buffer (env : Environment) (s : State) (i : Nat)
    (src : Addr) (t : TypeIndex) (srcsize sz : Nat)
    (hsz : GetSize env t = some sz)
    (hlen : srcsize ≤ (s.mem src).length)
    (hsrc : src ≠ s.next) :
    ∃ s', LoadData env s (GetDstData_dynamic i) src t srcsize = some s' ∧
      (s'.dyn i).data = s.next ∧
      (s'.dyn i).type = t ∧
      s'.next = s.next + 1 ∧
      s'.mem s.next =
        (s.mem src).take (min sz srcsize) ++ List.replicate (sz - min sz srcsize) 0 ∧
      (s'.mem s.next).length = sz ∧
      (∀ a, a ≠ s.next → s'.mem a = s.mem a) ∧
      s'.sta = s.sta := by
  have h : LoadData env s (GetDstData_dynamic i) src t srcsize =
      some ((((s.allocClear sz).1.writeData (DataSlot.dynSlot i) (s.allocClear sz).2).copyTo
        (((s.allocClear sz).1.writeData (DataSlot.dynSlot i)
          (s.allocClear sz).2).readData (DataSlot.dynSlot i)) src
        (min sz srcsize)).writeType (TypeSlot.dynType i) t) := by
    simp [LoadData, GetDstData_dynamic, hsz]
  have hm2 : min (min sz srcsize) (s.mem src).length = min sz srcsize :=
    Nat.min_eq_left (le_trans (Nat.min_le_right sz srcsize) hlen)
  have hm3 : min sz srcsize ≤ sz := Nat.min_le_left sz srcsize
  refine ⟨_, h, ?_, ?_, rfl, ?_, ?_, ?_, ?_⟩
  · simp [State.writeType, State.writeData, State.copyTo, State.allocClear]
  · simp [State.writeType, State.writeData, State.copyTo, State.allocClear]
  · simp [State.writeType, State.writeData, State.copyTo, State.readData,
      State.allocClear, copyBytes, hsrc, List.drop_replicate]
  · simp only [State.writeType, State.writeData, State.copyTo, State.readData,
      State.allocClear, copyBytes]
    simp [hsrc, List.drop_replicate, hm2]
  · intro a ha
    simp [State.writeType, State.writeData, State.copyTo, State.readData,
      State.allocClear, ha]
  · rfl

/-- C2 witness: loading 2 source bytes into a 4-byte type. -/
theorem loadData_dynamic_fresh_zeroed_buffer_witness :
    ∃ s', LoadData { timp := some ⟨[("u32", ⟨4⟩)]⟩ }
        ⟨fun _ => [17, 34], 50, fun _ => ⟨0, 0⟩, fun _ => ⟨9, 1⟩⟩
        (GetDstData_dynamic 0) 7 1 2 = some s' ∧
      (s'.dyn 0).data = 50 ∧
      (s'.dyn 0).type = 1 ∧
      s'.next = 51 ∧
      s'.mem 50 = [17, 34] ++ [0, 0] ∧
      (s'.mem 50).length = 4 ∧
      (∀ a, a ≠ 50 → s'.mem a = [17, 34]) ∧
      s'.sta = (⟨fun _ => [17, 34], 50, fun _ => ⟨0, 0⟩, fun _ => ⟨9, 1⟩⟩ : State).sta := by
  have h := loadData_dynamic_fresh_zeroed_buffer { timp := some ⟨[("u32", ⟨4⟩)]⟩ }
    ⟨fun _ => [17, 34], 50, fun _ => ⟨0, 0⟩, fun _ => ⟨9, 1⟩⟩ 0 7 1 2 4 rfl
    (by decide) (by decide)
  simpa using h

/-- C5: `LoadDataPointer` allocates a fresh buffer of `srcsize` bytes and
copies the literal into it, then stores that buffer's address, as a
`DataPointer::Size`-byte value, into the destination's buffer (for a dynamic
destination the data slot is first repointed at a fresh machine-word buffer,
and the type slot becomes `T_Pointer`; for a static destination the word is
written over the front of the existing buffer). -/
theorem loadDataPointer_stores_buffer_address (env : Environment) (s : State) (i j : Nat)
    (src : Addr) (srcsize : Nat)
    (hlen : srcsize ≤ (s.mem src).length)
    (h1 : src ≠ s.next)
    (hsta : (s.sta j).data ≠ s.next) :
    (∃ s', LoadDataPointer env s (GetDstData_dynamic i) src srcsize = some s' ∧
      s'.mem s.next = (s.mem src).take srcsize ∧
      (s'.mem s.next).length = srcsize ∧
      (s'.dyn i).data = s.next + 1 ∧
      s'.mem (s.next + 1) = encodeAddr s.next ∧
      (encodeAddr s.next).length = DataPointer.Size ∧
      (s'.dyn i).type = T_Pointer ∧
      s'.next = s.next + 2 ∧
      (∀ a, a ≠ s.next → a ≠ s.next + 1 → s'.mem a = s.mem a)) ∧
    (∃ s', LoadDataPointer env s (GetDstData_static j) src srcsize = some s' ∧
      s'.mem s.next = (s.mem src).take srcsize ∧
      s'.mem ((s.sta j).data) =
        encodeAddr s.next ++ (s.mem ((s.sta j).data)).drop DataPointer.Size ∧
      s'.dyn = s.dyn ∧ s'.sta = s.sta ∧ s'.next = s.next + 1 ∧
      (∀ a, a ≠ s.next → a ≠ (s.sta j).data → s'.mem a = s.mem a)) := by
  have hword : (encodeAddr s.next).length = DataPointer.Size := by
    simp [encodeAddr]
  have hne : ¬ s.next = s.next + 1 := fun h => Nat.succ_ne_self s.next h.symm
  have hne' : ¬ s.next + 1 = s.next := Nat.succ_ne_self s.next
  have hmin : min srcsize (s.mem src).length = srcsize := Nat.min_eq_left hlen
  constructor
  · refine ⟨_, rfl, ?_, ?_, ?_, ?_, hword, ?_, rfl, ?_⟩
    · simp [GetDstData_dynamic, State.writeType, State.writeData, State.writeBytes,
        State.copyTo, State.readData, State.allocClear, copyBytes, h1, hne, hne',
        List.drop_replicate]
    · simp [GetDstData_dynamic, State.writeType, State.writeData, State.writeBytes,
        State.copyTo, State.readData, State.allocClear, copyBytes, h1, hne, hne',
        List.drop_replicate, hmin]
    · simp [GetDstData_dynamic, State.writeType, State.writeData, State.writeBytes,
        State.copyTo, State.readData, State.allocClear]
    · simp [GetDstData_dynamic, State.writeType, State.writeData, State.writeBytes,
        State.copyTo, State.readData, State.allocClear, copyBytes, hne',
        List.drop_replicate, List.take_of_length_le (le_of_eq hword)]
    · simp [GetDstData_dynamic, State.writeType, State.writeData, State.writeBytes,
        State.copyTo, State.readData, State.allocClear]
    · intro a ha ha'
      simp [GetDstData_dynamic, State.writeType, State.writeData, State.writeBytes,
        State.copyTo, State.readData, State.allocClear, ha, ha']
  · have hsta' : ¬ (s.sta j).data = s.next := hsta
    refine ⟨_, rfl, ?_, ?_, rfl, rfl, rfl, ?_⟩
    · simp [GetDstData_static, State.writeBytes, State.copyTo, State.readData,
        State.allocClear, copyBytes, h1, hsta', List.drop_replicate]
      intro h
      exact absurd h.symm hsta'
    · simp [GetDstData_static, State.writeBytes, State.copyTo, State.readData,
        State.allocClear, copyBytes, hsta', List.take_of_length_le (le_of_eq hword)]
    · intro a ha ha'
      simp [GetDstData_static, State.writeBytes, State.copyTo, State.readData,
        State.allocClear, ha, ha']

/-- C5 witness: a 3-byte literal loaded through pointers into dynamic
register 0 of a concrete machine. -/
theorem loadDataPointer_stores_buffer_address_witness :
    ∃ s', LoadDataPointer ⟨none, none, []⟩
        ⟨fun _ => [1, 2, 3, 4, 5, 6, 7, 8], 50, fun _ => ⟨0, 0⟩, fun _ => ⟨9, 1⟩⟩
        (GetDstData_dynamic 0) 7 3 = some s' ∧
      s'.mem 50 = [1, 2, 3] ∧
      (s'.dyn 0).data = 51 ∧
      s'.mem 51 = encodeAddr 50 ∧
      (s'.dyn 0).type = T_Pointer ∧
      s'.next = 52 := by
  have h := (loadDataPointer_stores_buffer_address ⟨none, none, []⟩
    ⟨fun _ => [1, 2, 3, 4, 5, 6, 7, 8], 50, fun _ => ⟨0, 0⟩, fun _ => ⟨9, 1⟩⟩ 0 0 7 3
    (by decide) (by decide) (by decide)).1
  obtain ⟨s', he, hA, _, hC, hD, _, hF, hG, _⟩ := h
  exact ⟨s', he, hA, hC, hD, hF, hG⟩

/-- C6: `parseRegister` maps exactly the tokens `%res` and `%0` to the
dedicated result and zero registers; every other token `%<digits>` without
an environment suffix (index in `uint16` range) parses as a class-`n`
register with qualifier `e_current` — in particular `%0(%env)` is class-`n`
index 0, not the zero register. -/
theorem parseRegister_spec :
    parseRegister ['%', 'r', 'e', 's'] = (.res, []) ∧
    parseRegister ['%', '0'] = (.zero, []) ∧
    parseRegister ['%', '0', '(', '%', 'e', 'n', 'v', ')'] = (.reg .r_n .e_current 0, []) ∧
    ∀ ds : List Char, ds ≠ [] → ds.all Char.isDigit = true → ds ≠ ['0'] →
      digitsToNat ds < 65536 →
      parseRegister ('%' :: ds) = (.reg .r_n .e_current (digitsToNat ds), []) := by
  refine ⟨by decide, by decide, by decide, ?_⟩
  intro ds hne hall h0 hlt
  obtain ⟨d, ds', rfl⟩ : ∃ d ds', ds = d :: ds' := by
    cases ds with
    | nil => exact absurd rfl hne
    | cons d ds' => exact ⟨d, ds', rfl⟩
  have hd : d.isDigit = true := by
    have h := List.all_eq_true.mp hall
    exact h d (List.mem_cons_self d ds')
  have hdg : d ≠ 'g' := fun h => by subst h; exact absurd hd (by decide)
  have hdt : d ≠ 't' := fun h => by subst h; exact absurd hd (by decide)
  have hdr : d ≠ 'r' := fun h => by subst h; exact absurd hd (by decide)
  have h0' : ¬ (d = '0' ∧ ds' = []) := by
    rintro ⟨rfl, rfl⟩
    exact h0 rfl
  have hres : ('%' :: d :: ds') ≠ ['%', 'r', 'e', 's'] := by
    simp only [ne_eq, List.cons.injEq]
    rintro ⟨-, hdr', -⟩
    exact hdr hdr'
  have h0c : ('%' :: d :: ds') ≠ ['%', '0'] := by
    simp only [ne_eq, List.cons.injEq]
    rintro ⟨-, h1, h2⟩
    exact h0' ⟨h1, h2⟩
  simp only [parseRegister]
  rw [if_neg (by simp), if_neg hres, if_neg h0c]
  simp only [show ('%' :: d :: ds').getD 1 (Char.ofNat 0) = d from rfl,
    show ('%' :: d :: ds').drop 1 = d :: ds' from rfl]
  simp only [hdg, hdt, hd, if_false, if_true]
  simp [regexRC, hall, parseNumberBounded, isIntegerDec, hlt]

/-- C6 witness: the universally quantified `%<digits>` clause at the
concrete token `%12`. -/
theorem parseRegister_spec_witness :
    parseRegister ['%', '1', '2'] = (.reg .r_n .e_current 12, []) := by
  have h := parseRegister_spec.2.2.2 ['1', '2'] (by decide) (by decide) (by decide) (by decide)
  simpa using h

/-- C8: a `.type <name>` section header whose decoded name is already in
the type registry prints the `DuplicateType` diagnostic — whose message
text is `type name duplicate` — and leaves both the registry and the
current-type cursor unchanged: no second insertion happens, so the
duplicate never reaches the runtime registry. -/
theorem parseSectionType_duplicate (tim : TypeInfoMap) (ct : String) (w : List Char)
    (i : TypeIndex) (h : tim.find (String.mk (parseIdentifier w).1) = some i) :
    parseSectionTypeCase tim ct [w]
      = (tim, ct, (parseIdentifier w).2 ++ [.code .PEC_DUType]) ∧
    geterrmsg .PEC_DUType = "type name duplicate" := by
  constructor
  · simp [parseSectionTypeCase, h]
  · rfl

/-- C8 witness: redeclaring the registered type `u32`. -/
theorem parseSectionType_duplicate_witness :
    parseSectionTypeCase ⟨[("u32", ⟨4⟩)]⟩ "" ["u32".toList]
      = (⟨[("u32", ⟨4⟩)]⟩, "", [.code .PEC_DUType]) ∧
    geterrmsg .PEC_DUType = "type name duplicate" := by
  have h := parseSectionType_duplicate ⟨[("u32", ⟨4⟩)]⟩ "" "u32".toList 1 (by decide)
  simpa using h

/-- C9 counterexample: a bare `#` needs no escape — `parseIdentifier`
accepts `a#b` verbatim with no diagnostic, so it is not the case that `#`
must be written `%`-escaped. -/
theorem parseIdentifier_bare_hash_counterexample :
    parseIdentifier ['a', '#', 'b'] = (['a', '#', 'b'], []) := by decide

/-- C9 amended: `parseIdentifier` passes every character through unchanged
— a bare `#` included — except `%`, which must be escaped: `%%` decodes to
`%`, `%#` decodes to `#`, and `%` followed by any other character (the
character is dropped) or a trailing `%` is the `UnrecognizedEscape`
diagnostic. -/
theorem parseIdentifier_escape_amended (c : Char) (rest s : List Char) :
    ('%' ∉ s → parseIdentifier s = (s, [])) ∧
    parseIdentifier ('%' :: '%' :: rest) =
      ('%' :: (parseIdentifier rest).1, (parseIdentifier rest).2) ∧
    parseIdentifier ('%' :: '#' :: rest) =
      ('#' :: (parseIdentifier rest).1, (parseIdentifier rest).2) ∧
    (c ≠ '%' → c ≠ '#' → parseIdentifier ('%' :: c :: rest) =
      ((parseIdentifier rest).1, .code .PEC_UREscape :: (parseIdentifier rest).2)) ∧
    parseIdentifier ['%'] = ([], [.code .PEC_UREscape]) := by
  refine ⟨?_, rfl, rfl, ?_, rfl⟩
  · intro hs
    induction s with
    | nil => rfl
    | cons d ds ih =>
      have hd : d ≠ '%' := fun h => hs (h ▸ List.mem_cons_self d ds)
      have hds : '%' ∉ ds := fun h => hs (List.mem_cons_of_mem d h)
      have ih' := ih hds
      simp only [parseIdentifier, parseIdentifierChars, hd, if_false] at ih' ⊢
      simp [ih']
  · intro hc hc'
    simp [parseIdentifier, parseIdentifierChars, hc, hc']

/-- C9 witness: the amended behaviour at concrete inputs — `ab` passes
through, and `%x` is the escape diagnostic with `x` dropped. -/
theorem parseIdentifier_escape_amended_witness :
    parseIdentifier ['a', 'b'] = (['a', 'b'], []) ∧
    parseIdentifier ['%', 'x', 'z'] = (['z'], [.code .PEC_UREscape]) := by
  have h := parseIdentifier_escape_amended 'x' ['z'] ['a', 'b']
  exact ⟨h.1 (by decide), by simpa using h.2.2.2.1 (by decide) (by decide)⟩

/-- C7: a `data <#index> 0x<hex-payload> <capacity>` directive in `.datas`
with a fresh index stores a blob of exactly `capacity` bytes — the decoded
hex payload followed by zero padding — and prints no diagnostic; when the
payload is longer than the capacity the directive prints the
`NumberTooLarge` diagnostic and stores nothing. -/
theorem datasData_directive_spec (datamap : List (Nat × List Byte))
    (ds pay cap : List Char)
    (hds : isIntegerDec ds = true) (hdlt : digitsToNat ds < 4294967296)
    (hfresh : dataMapFind datamap (digitsToNat ds) = none)
    (hcap : isIntegerDec cap = true) (hclt : digitsToNat cap < 18446744073709551616)
    (hpay : isIntegerHex pay = true) (heven : pay.length % 2 = 0) :
    (pay.length / 2 ≤ digitsToNat cap →
      datasDataDirective datamap [('#' :: ds), ('0' :: 'x' :: pay), cap] =
        (datamap ++ [(digitsToNat ds,
          decodeHexLE pay ++ List.replicate (digitsToNat cap - pay.length / 2) 0)], []) ∧
      (decodeHexLE pay ++ List.replicate (digitsToNat cap - pay.length / 2) 0).length
        = digitsToNat cap) ∧
    (digitsToNat cap < pay.length / 2 →
      datasDataDirective datamap [('#' :: ds), ('0' :: 'x' :: pay), cap] =
        (datamap, [.code .PEC_NumTooLarge])) := by
  have hpne : pay ≠ [] := by
    intro h
    rw [h] at hpay
    exact absurd hpay (by decide)
  have hplen : 0 < pay.length := List.length_pos.mpr hpne
  have hceil : (pay.length + 1) / 2 = pay.length / 2 := by omega
  have hdeclen : (decodeHexLE pay).length = pay.length / 2 := by
    simp [decodeHexLE, hceil]
  have hpdi : parseDataIndex ('#' :: ds) = (some (digitsToNat ds), []) := by
    simp [parseDataIndex, parseNumberBounded, hds, hdlt]
  have hszp : parseNumberBounded 18446744073709551616 cap = (some (digitsToNat cap), []) := by
    simp [parseNumberBounded, hcap, hclt]
  have hpdl : parseDataLarge (List.replicate (digitsToNat cap) 0) pay =
      (decodeHexLE pay ++ List.replicate (digitsToNat cap - pay.length / 2) 0, []) := by
    simp [parseDataLarge, hpay, copyBytes, List.drop_replicate, hdeclen]
  constructor
  · intro hle
    refine ⟨?_, ?_⟩
    · simp [datasDataDirective, hpdi, hfresh, hszp, hpdl, hpne, hle]
    · simp only [List.length_append, List.length_replicate, hdeclen]
      omega
  · intro hgt
    have hnle : ¬ pay.length / 2 ≤ digitsToNat cap := by omega
    simp [datasDataDirective, hpdi, hfresh, hszp, hpne, hnle]

/-- C7 witness: `data #1 0xDEADBEEF 4` stores `[EF BE AD DE]`, while
`data #1 0xDEADBEEF 2` is `NumberTooLarge` and stores nothing. -/
theorem datasData_directive_spec_witness :
    datasDataDirective []
        [['#', '1'], ['0', 'x', 'D', 'E', 'A', 'D', 'B', 'E', 'E', 'F'], ['4']] =
      ([(1, [0xEF, 0xBE, 0xAD, 0xDE])], []) ∧
    datasDataDirective []
        [['#', '1'], ['0', 'x', 'D', 'E', 'A', 'D', 'B', 'E', 'E', 'F'], ['2']] =
      ([], [.code .PEC_NumTooLarge]) := by
  have h1 := (datasData_directive_spec [] ['1'] ['D', 'E', 'A', 'D', 'B', 'E', 'E', 'F']
    ['4'] (by decide) (by decide) (by decide) (by decide) (by decide) (by decide)
    (by decide)).1 (by decide)
  have h2 := (datasData_directive_spec [] ['1'] ['D', 'E', 'A', 'D', 'B', 'E', 'E', 'F']
    ['2'] (by decide) (by decide) (by decide) (by decide) (by decide) (by decide)
    (by decide)).2 (by decide)
  refine ⟨?_, ?_⟩
  · rw [h1.1]
    decide
  · exact h2

/-- C10: only `GlobalEnvironment::addSubEnvironment` installs the type-info
map into the attached child: afterwards the child's `getType` agrees with
the global registry, while a child attached through the base
`Environment::addSubEnvironment` keeps a null map and its `getType` stays
undefined. -/
theorem addSubEnvironment_typeinfo (tim : TypeInfoMap) (child : Environment)
    (hc : child.timp = none) (pid cid : Nat) (t : TypeIndex) :
    ((GlobalEnvironment.addSubEnvironment (mkGlobalEnvironment tim) pid child cid).2).getType t
      = tim.atIndex t ∧
    ((Environment.addSubEnvironment (mkGlobalEnvironment tim) pid child cid).2).getType t
      = none := by
  constructor
  · simp [GlobalEnvironment.addSubEnvironment, Environment.addSubEnvironment,
      mkGlobalEnvironment, Environment.getType]
  · simp [Environment.addSubEnvironment, Environment.getType, hc]

/-- C10 witness: attaching a fresh child below a global environment whose
registry holds `u32` at index 1. -/
theorem addSubEnvironment_typeinfo_witness :
    ((GlobalEnvironment.addSubEnvironment (mkGlobalEnvironment ⟨[("u32", ⟨4⟩)]⟩) 0
        ⟨none, none, []⟩ 1).2).getType 1 = some ⟨4⟩ ∧
    ((Environment.addSubEnvironment (mkGlobalEnvironment ⟨[("u32", ⟨4⟩)]⟩) 0
        ⟨none, none, []⟩ 1).2).getType 1 = none := by
  have h := addSubEnvironment_typeinfo ⟨[("u32", ⟨4⟩)]⟩ ⟨none, none, []⟩ rfl 0 1 1
  simpa using h

end Theorems

end CVM
